import Mathlib

/-!
Verification development for the Mackie control-surface protocol driver
(`src/ctrl_surf/imp/mackie.rs`).  The driver is a pure state machine: each
operation maps (state, input) to (new state, ordered batch of outbound
messages).  We embed the driver shallowly: machine bytes are `Nat` with
explicit `% 256` where 8-bit wraparound matters, fallible paths return
`Option` / `Except`, and the Rust panic in the Play/Pause handlers is
modelled by `Option` (with `none` for the unreachable branch).

The `midi` and `ctrl_surf` support modules (message framing, the outbound
`Msg` type, the error enum, the normalized 14-bit fader codec and the
timecode rendering) are not part of the sources; the few pieces the driver
needs are modelled from the spec and marked as such below.
-/

/-- Connection sub-status while handshaking (source enum `ConnectionStatus`). -/
inductive ConnectionStatus
  | deviceQueried
  | challengeReplied
  deriving DecidableEq, Repr

/-- Driver connection state (source enum `State`). -/
inductive State
  | connecting (status : ConnectionStatus)
  | connected
  | disconnected
  | playing
  | stopped
  deriving DecidableEq, Repr

/-- Fader touch state (source enum `FaderState`).  Volumes are `f64` in the
source; they are carried opaquely (never computed with), so we use `ℚ` as
the value carrier. -/
inductive FaderState
  | released
  | touched (last_volume : Option ℚ)
  deriving DecidableEq, Repr

/-- Transport events (source `event::Transport`). -/
inductive Transport
  | previous
  | next
  | stop
  | playPause
  | play
  | pause
  deriving DecidableEq, Repr

/-- Mixer events (source `event::Mixer`). -/
inductive Mixer
  | volume (v : ℚ)
  | mute
  deriving DecidableEq, Repr

/-- Application-bound control-surface events appearing in the driver's
outputs (source `CtrlSurfEvent`; payload strings are dropped). -/
inductive CtrlSurfEvent
  | transport (t : Transport)
  | mixer (mx : Mixer)
  | dataRequest
  deriving DecidableEq, Repr

/-- Modelled from the spec: the `ctrl_surf::Error` taxonomy (the enum itself
lives outside src/).  `UnexpectedDeviceMessage`, `ManufacturerMismatch` and
`ConnectionError` are the three spec errors; `midiError` stands for a sysex
framing parse failure propagated from the `midi` layer.  Diagnostic display
strings carried by the Rust variants are dropped. -/
inductive CtrlSurfError
  | unexpectedDeviceMsg
  | manufacturerMismatch
  | connectionError
  | midiError
  deriving DecidableEq, Repr

deriving instance DecidableEq for Except

/-- Modelled from the spec: an outbound message (source `ctrl_surf::Msg`) is
either device-bound raw MIDI bytes or app-bound (an event, a
connection-in-progress notice, or a connection result). -/
inductive Msg
  | toDevice (bytes : List ℕ)
  | toApp (ev : CtrlSurfEvent)
  | connectionInProgress
  | connectionResult (r : Except CtrlSurfError Unit)
  deriving DecidableEq, Repr

/-- Modelled from the spec: the application data events (`event::Data`).  A
timecode is represented by its rendered 10-character display buffer (the
`TimecodeBreakDown` the source computes from the formatted timecode; the
`Timecode` type and its fixed-width formatting live outside src/). -/
inductive Data
  | timecode (tc : List ℕ)
  | appName
  | track
  deriving DecidableEq, Repr

/-- Application feedback events accepted by `event_to_device`
(source `Feedback`; the `NewApp` name payload is dropped). -/
inductive Feedback
  | transport (t : Transport)
  | mixer (mx : Mixer)
  | newApp
  | data (d : Data)
  deriving DecidableEq, Repr

/-- The driver state (source struct `Mackie`).  `last_tc` is the 10-byte
`TimecodeBreakDown` buffer, `chan` the current MIDI channel nibble. -/
structure Mackie where
  last_tc : List ℕ
  chan : ℕ
  state : State
  fader_state : FaderState
  device_id : Option ℕ
  deriving DecidableEq, Repr

/-- Source `Default for Mackie`: blank timecode buffer, default channel (0),
`Disconnected`, fader `Released`, no device id. -/
def Mackie.default : Mackie :=
  { last_tc := List.replicate 10 32
    chan := 0
    state := .disconnected
    fader_state := .released
    device_id := none }

/-- Modelled from the spec: `midi::Msg::new_sysex` frames an opaque payload
with the sysex start/end markers. -/
def new_sysex (payload : List ℕ) : List ℕ :=
  0xF0 :: (payload ++ [0xF7])

/-- Modelled from the spec: `midi::Msg::parse_sysex` recovers the payload of
a framed sysex message, failing on anything not framed by the markers. -/
def parse_sysex (buf : List ℕ) : Option (List ℕ) :=
  match buf with
  | 0xF0 :: rest => if rest.getLast? = some 0xF7 then some rest.dropLast else none
  | _ => none

/-- Modelled from the spec: `midi::normalized_f64::to_be` encodes a
normalized value as a 14-bit big-endian quantity split into two 7-bit data
bytes (hi, lo).  The source unwraps the `Result`; we use a total clamping
encoder, which agrees on in-range values. -/
def normalized_to_be (v : ℚ) : ℕ × ℕ :=
  let n : ℕ := (Int.toNat ⌊v * 16383⌋).min 16383
  ((n >>> 7) &&& 0x7F, n &&& 0x7F)

/-- Modelled from the spec: `midi::normalized_f64::from_be` decodes two
7-bit data bytes into a normalized value, failing on out-of-range bytes
(decode failure is a soft error: the message is dropped). -/
def normalized_from_be (hi lo : ℕ) : Option ℚ :=
  if hi < 128 ∧ lo < 128 then some (((hi * 128 + lo : ℕ) : ℚ) / 16383) else none

/-- Wrapping 8-bit addition (`u8` `+` in release semantics). -/
def wadd (a b : ℕ) : ℕ := (a + b) % 256

/-- Wrapping 8-bit subtraction (`u8` `-` in release semantics). -/
def wsub (a b : ℕ) : ℕ := (a % 256 + 256 - b % 256) % 256

/-- Wrapping 8-bit left shift (`u8` `<<`, keeping the low 8 bits). -/
def wshl (a n : ℕ) : ℕ := (a <<< n) % 256

/-- The 4-byte challenge response computed by `Mackie::device_query_host`
(source lines 449-452), byte for byte with `u8` wraparound semantics. -/
def cipher_response (c0 c1 c2 c3 : ℕ) : List ℕ :=
  [ 0x7F &&& wsub (wadd c0 (c1 ^^^ 0x0A)) c3,
    0x7F &&& ((c2 >>> 4) ^^^ wadd c0 c3),
    0x7F &&& (wsub c3 (wshl c2 2) ^^^ (c0 ||| c1)),
    0x7F &&& (wadd (wsub c1 c2) (0xF0 ^^^ wshl c3 4)) ]

/-- The challenge-response formulas exactly as documented in the spec
(section 4.3): r0 = (c0 + (c1 ^ 0x0A) - c3) & 0x7F and so on, every
addition, subtraction and shift performed modulo 256 before the 0x7F mask
(subtraction modulo 256 over bytes a, b written as (a + 256 - b) % 256). -/
def spec_cipher_response (c0 c1 c2 c3 : ℕ) : List ℕ :=
  [ (((c0 + (c1 ^^^ 0x0A)) % 256 + 256 - c3) % 256) &&& 0x7F,
    ((c2 >>> 4) ^^^ ((c0 + c3) % 256)) &&& 0x7F,
    (((c3 + 256 - (c2 <<< 2) % 256) % 256) ^^^ (c0 ||| c1)) &&& 0x7F,
    ((((c1 + 256 - c2) % 256) + (0xF0 ^^^ ((c3 <<< 4) % 256))) % 256) &&& 0x7F ]

/-- Source `Mackie::is_connected`: true unless `Connecting(_)` or
`Disconnected`. -/
def Mackie.is_connected (m : Mackie) : Bool :=
  match m.state with
  | .connecting _ => false
  | .disconnected => false
  | _ => true

/-- Source `Mackie::build_fader_msg`: a device fader message on the current
channel carrying the 14-bit big-endian encoding of the volume. -/
def Mackie.build_fader_msg (m : Mackie) (vol : ℚ) : Msg :=
  let two_bytes := normalized_to_be vol
  .toDevice [0xE0 ||| m.chan, two_bytes.1, two_bytes.2]

/-- Source `Mackie::device_fader_touch`: the touch-button value against the
threshold 64 drives the `FaderState` machine; releasing with a buffered
volume emits the app Volume event and re-sends the fader position. -/
def Mackie.device_fader_touch (m : Mackie) (value : ℕ) : Mackie × List Msg :=
  let is_touched := 64 < value
  match m.fader_state with
  | .released =>
    if is_touched then ({ m with fader_state := .touched none }, []) else (m, [])
  | .touched last_volume =>
    if is_touched then (m, [])
    else
      match last_volume with
      | some vol =>
        ({ m with fader_state := .released },
         [.toApp (.mixer (.volume vol)), m.build_fader_msg vol])
      | none => ({ m with fader_state := .released }, [])

/-- Source `Mackie::device_fader_moved`: decode the 14-bit value; on decode
failure drop the message; otherwise buffer while touched and always forward
the volume to the application. -/
def Mackie.device_fader_moved (m : Mackie) (hi lo : ℕ) : Mackie × List Msg :=
  match normalized_from_be hi lo with
  | none => (m, [])
  | some vol =>
    match m.fader_state with
    | .touched _ =>
      ({ m with fader_state := .touched (some vol) }, [.toApp (.mixer (.volume vol))])
    | .released => (m, [.toApp (.mixer (.volume vol))])

/-- The indexed diff loop of `Mackie::app_timecode`: one display-update
message per position where the previous and the new buffer differ, addressed
at 0x49 minus the position index. -/
def diff_msgs : ℕ → List ℕ → List ℕ → List Msg
  | _, [], _ => []
  | _, _ :: _, [] => []
  | idx, a :: as, b :: bs =>
    (if a ≠ b then [Msg.toDevice [0xB0, 0x49 - idx, b]] else []) ++ diff_msgs (idx + 1) as bs

/-- Source `Mackie::app_timecode`: emit the diff against the stored buffer,
then replace the stored buffer with the new one. -/
def Mackie.app_timecode (m : Mackie) (tc : List ℕ) : Mackie × List Msg :=
  ({ m with last_tc := tc }, diff_msgs 0 m.last_tc tc)

/-- Source `Mackie::app_volume`: send the fader position if released,
otherwise buffer the volume in `last_volume`. -/
def Mackie.app_volume (m : Mackie) (vol : ℚ) : Mackie × List Msg :=
  match m.fader_state with
  | .released => (m, [m.build_fader_msg vol])
  | .touched _ => ({ m with fader_state := .touched (some vol) }, [])

/-- Source `Mackie::app_play`: `none` models the `unreachable!` panic on
`Connecting(_) | Disconnected`. -/
def Mackie.app_play (m : Mackie) : Option (Mackie × List Msg) :=
  let tag_chan := 0x90 ||| m.chan
  match m.state with
  | .connected | .stopped =>
    some ({ m with state := .playing },
          [.toDevice [tag_chan, 93, 0], .toDevice [tag_chan, 94, 127]])
  | .playing => some (m, [.toDevice [tag_chan, 94, 127]])
  | .connecting _ => none
  | .disconnected => none

/-- Source `Mackie::app_pause`: `none` models the `unreachable!` panic on
`Connecting(_) | Disconnected`. -/
def Mackie.app_pause (m : Mackie) : Option (Mackie × List Msg) :=
  let tag_chan := 0x90 ||| m.chan
  match m.state with
  | .connected | .playing =>
    some ({ m with state := .stopped },
          [.toDevice [tag_chan, 94, 0], .toDevice [tag_chan, 93, 127]])
  | .stopped => some (m, [.toDevice [tag_chan, 93, 127]])
  | .connecting _ => none
  | .disconnected => none

/-- Source `Mackie::reset`: four transport-button OFF messages on the
current channel, ten blank display digits, collapse
Connected/Playing/Stopped to Connected, and rebuild everything else from
`Default` (so channel and device id are reset as well). -/
def Mackie.reset (m : Mackie) : Mackie × List Msg :=
  let tag_chan := 0x90 ||| m.chan
  let list : List Msg :=
    [.toDevice [tag_chan, 91, 0], .toDevice [tag_chan, 92, 0],
     .toDevice [tag_chan, 93, 0], .toDevice [tag_chan, 94, 0]]
    ++ (List.range 10).map (fun idx => Msg.toDevice [0xB0, 0x49 - idx, 32])
  let state :=
    match m.state with
    | .connected | .playing | .stopped => State.connected
    | other => other
  ({ Mackie.default with state := state }, list)

/-- Source `Mackie::event_to_device`: drop every event while not connected;
otherwise dispatch.  `none` propagates the Play/Pause `unreachable!`. -/
def Mackie.event_to_device (m : Mackie) (event : Feedback) : Option (Mackie × List Msg) :=
  if m.is_connected then
    match event with
    | .transport .play => m.app_play
    | .transport .pause => m.app_pause
    | .transport .stop => some m.reset
    | .transport _ => some (m, [])
    | .mixer (.volume vol) => some (m.app_volume vol)
    | .mixer .mute => some (m, [])
    | .newApp =>
      some (let r := m.reset
            (r.1, r.2 ++ [Msg.toApp .dataRequest]))
    | .data (.timecode tc) => some (m.app_timecode tc)
    | .data _ => some (m, [])
  else some (m, [])

/-- Source `Mackie::device_connected`: record the device id, enter
`Connected`, emit the success signal and a data request. -/
def Mackie.device_connected (m : Mackie) (dev : ℕ) : Mackie × List Msg :=
  ({ m with device_id := some dev, state := .connected },
   [.connectionResult (.ok ()), .toApp .dataRequest])

/-- Source `Mackie::device_query_host`: require 7 serial + 4 challenge
bytes (else `Disconnected` and an error); for a Logic Control family id
reply with the HOST_REPLY sysex carrying the serial and the cipher response
and enter `Connecting(ChallengeReplied)`; otherwise connect directly. -/
def Mackie.device_query_host (m : Mackie) (dev : ℕ) (serial_challenge : List ℕ) :
    Mackie × Except Unit (List Msg) :=
  if 11 ≤ serial_challenge.length then
    let ser := serial_challenge.take 7
    let chlg := (serial_challenge.drop 7).take 4
    if dev = 0x10 ∨ dev = 0x11 then
      let resp := [0x00, 0x00, 0x66, dev, 0x02] ++ ser ++
        cipher_response (chlg.getD 0 0) (chlg.getD 1 0) (chlg.getD 2 0) (chlg.getD 3 0)
      ({ m with state := .connecting .challengeReplied },
       .ok [.toDevice (new_sysex resp), .connectionInProgress])
    else
      let r := m.device_connected dev
      (r.1, .ok r.2)
  else
    ({ m with state := .disconnected }, .error ())

/-- Source `Mackie::device_connection`: parse the sysex, check the 5-byte
header (length, manufacturer id), then dispatch on the request/reply code.
Note that neither the length check nor the manufacturer check touches the
state, while DEVICE_ERR, QUERY_DEVICE, unknown codes and malformed
QUERY_HOST payloads force `Disconnected`. -/
def Mackie.device_connection (m : Mackie) (buf : List ℕ) :
    Mackie × Except CtrlSurfError (List Msg) :=
  match parse_sysex buf with
  | none => (m, .error .midiError)
  | some payload =>
    if payload.length < 5 then (m, .error .unexpectedDeviceMsg)
    else if payload.take 3 ≠ [0x00, 0x00, 0x66] then (m, .error .manufacturerMismatch)
    else
      let dev := payload.getD 3 0
      let code := payload.getD 4 0
      if code = 0x01 then
        match m.device_query_host dev (payload.drop 5) with
        | (m', .ok msgs) => (m', .ok msgs)
        | (m', .error _) => (m', .error .unexpectedDeviceMsg)
      else if code = 0x03 then
        let r := m.device_connected dev
        (r.1, .ok r.2)
      else if code = 0x04 then
        ({ m with state := .disconnected }, .error .connectionError)
      else
        ({ m with state := .disconnected }, .error .unexpectedDeviceMsg)

/-- Source `Mackie::device_sysex`: surface a connection error as a
connection-result message. -/
def Mackie.device_sysex (m : Mackie) (buf : List ℕ) : Mackie × List Msg :=
  match m.device_connection buf with
  | (m', .ok msgs) => (m', msgs)
  | (m', .error e) => (m', [.connectionResult (.error e)])

/-- Source `Mackie::msg_from_device`: capture the channel nibble from the
first byte, then dispatch on the tag nibble (button 0x90, fader 0xE0,
sysex 0xF0); everything unrecognized is a no-op. -/
def Mackie.msg_from_device (m : Mackie) (buf : List ℕ) : Mackie × List Msg :=
  match buf with
  | [] => (m, [])
  | tag_chan :: rest =>
    let m1 := { m with chan := tag_chan % 16 }
    let tag := tag_chan &&& 0xF0
    if tag = 0x90 then
      match rest with
      | 91 :: 127 :: _ => (m1, [.toApp (.transport .previous)])
      | 92 :: 127 :: _ => (m1, [.toApp (.transport .next)])
      | 93 :: 127 :: _ => (m1, [.toApp (.transport .stop)])
      | 94 :: 127 :: _ => (m1, [.toApp (.transport .playPause)])
      | 104 :: value :: _ => m1.device_fader_touch value
      | _ => (m1, [])
    else if tag = 0xE0 then
      match rest with
      | hi :: lo :: _ => m1.device_fader_moved hi lo
      | _ => (m1, [])
    else if tag = 0xF0 then
      m1.device_sysex buf
    else
      (m1, [])

/-- Source `Mackie::prepare_payload` / `payload_for`: the 5-byte sysex
header (manufacturer id, device sub-model id, request code). -/
def payload_for (dev req : ℕ) : List ℕ :=
  [0x00, 0x00, 0x66, dev, req]

/-- Source `Mackie::start_identification`: rebuild the driver from defaults
in `Connecting(DeviceQueried)` and emit the QUERY_DEVICE sysex for the
XTouch sub-model id. -/
def Mackie.start_identification (_m : Mackie) : Mackie × List Msg :=
  ({ Mackie.default with state := .connecting .deviceQueried },
   [.toDevice (new_sysex (payload_for 0x14 0x00))])

/-! ## Helper lemmas -/

theorem parse_sysex_new_sysex (p : List ℕ) : parse_sysex (new_sysex p) = some p := by
  simp [parse_sysex, new_sysex]

theorem msg_from_device_new_sysex (m : Mackie) (p : List ℕ) :
    m.msg_from_device (new_sysex p) = ({ m with chan := 0 }).device_sysex (new_sysex p) := by
  show m.msg_from_device (0xF0 :: (p ++ [0xF7])) = _
  simp [Mackie.msg_from_device, new_sysex]

theorem device_query_host_ok_msgs (m m' : Mackie) (dev : ℕ) (sc : List ℕ) (msgs : List Msg)
    (h : m.device_query_host dev sc = (m', .ok msgs)) :
    ∀ e, Msg.connectionResult (.error e) ∉ msgs := by
  unfold Mackie.device_query_host Mackie.device_connected at h
  split_ifs at h <;> simp_all
  all_goals (rcases h with ⟨h1, h2⟩; subst h2; intro e0; simp)

theorem device_query_host_error_state (m m' : Mackie) (dev : ℕ) (sc : List ℕ) (u : Unit)
    (h : m.device_query_host dev sc = (m', .error u)) :
    m' = { m with state := .disconnected } := by
  unfold Mackie.device_query_host Mackie.device_connected at h
  split_ifs at h <;> simp_all

theorem device_connection_spec (m : Mackie) (buf : List ℕ) :
    (∀ m' msgs, m.device_connection buf = (m', .ok msgs) →
        ∀ e, Msg.connectionResult (.error e) ∉ msgs) ∧
    (∀ m' e, m.device_connection buf = (m', .error e) →
        (e = .connectionError → m'.state = .disconnected) ∧
        (e = .manufacturerMismatch → m' = m) ∧
        (e = .midiError → m' = m) ∧
        (parse_sysex buf = none → e = .midiError) ∧
        (e = .unexpectedDeviceMsg → ∀ p, parse_sysex buf = some p →
            (5 ≤ p.length → m'.state = .disconnected) ∧ (p.length < 5 → m' = m))) := by
  constructor
  · intro m' msgs h e
    unfold Mackie.device_connection Mackie.device_connected at h
    rcases hp : parse_sysex buf with _ | payload <;> rw [hp] at h <;> dsimp only at h
    · simp at h
    · by_cases h5 : payload.length < 5
      · rw [if_pos h5] at h; simp at h
      · rw [if_neg h5] at h
        by_cases hman : payload.take 3 = [0x00, 0x00, 0x66]
        · rw [if_neg (not_not_intro hman)] at h
          by_cases hc1 : payload.getD 4 0 = 0x01
          · rw [if_pos hc1] at h
            rcases hq : m.device_query_host (payload.getD 3 0) (payload.drop 5) with ⟨m2, r2⟩
            rw [hq] at h
            rcases r2 with u | msgs2 <;> dsimp only at h
            · simp at h
            · simp only [Prod.mk.injEq, Except.ok.injEq] at h
              obtain ⟨h1, h2⟩ := h
              subst h1; subst h2
              exact device_query_host_ok_msgs _ _ _ _ _ hq e
          · rw [if_neg hc1] at h
            by_cases hc3 : payload.getD 4 0 = 0x03
            · rw [if_pos hc3] at h
              simp only [Prod.mk.injEq, Except.ok.injEq] at h
              obtain ⟨h1, h2⟩ := h
              subst h2; simp
            · rw [if_neg hc3] at h
              by_cases hc4 : payload.getD 4 0 = 0x04
              · rw [if_pos hc4] at h; simp at h
              · rw [if_neg hc4] at h; simp at h
        · rw [if_pos hman] at h; simp at h
  · intro m' e h
    unfold Mackie.device_connection Mackie.device_connected at h
    rcases hp : parse_sysex buf with _ | payload <;> rw [hp] at h <;> dsimp only at h
    · simp only [Prod.mk.injEq, Except.error.injEq] at h
      obtain ⟨h1, h2⟩ := h
      subst h1; subst h2
      refine ⟨by simp, by simp, fun _ => rfl, fun _ => rfl, by simp⟩
    · by_cases h5 : payload.length < 5
      · rw [if_pos h5] at h
        simp only [Prod.mk.injEq, Except.error.injEq] at h
        obtain ⟨h1, h2⟩ := h
        subst h1; subst h2
        refine ⟨by simp, by simp, by simp, ?_, ?_⟩
        · intro hnone; cases hnone
        · intro _ p hpp
          cases hpp
          exact ⟨fun hcon => absurd hcon (by omega), fun _ => rfl⟩
      · rw [if_neg h5] at h
        by_cases hman : payload.take 3 = [0x00, 0x00, 0x66]
        · rw [if_neg (not_not_intro hman)] at h
          by_cases hc1 : payload.getD 4 0 = 0x01
          · rw [if_pos hc1] at h
            rcases hq : m.device_query_host (payload.getD 3 0) (payload.drop 5) with ⟨m2, r2⟩
            rw [hq] at h
            rcases r2 with u | msgs2 <;> dsimp only at h
            · simp only [Prod.mk.injEq, Except.error.injEq] at h
              obtain ⟨h1, h2⟩ := h
              subst h1; subst h2
              have hm2 := device_query_host_error_state _ _ _ _ _ hq
              subst hm2
              refine ⟨by simp, by simp, by simp, ?_, ?_⟩
              · intro hnone; cases hnone
              · intro _ p hpp
                cases hpp
                exact ⟨fun _ => rfl, fun hlt => absurd hlt (by omega)⟩
            · simp at h
          · rw [if_neg hc1] at h
            by_cases hc3 : payload.getD 4 0 = 0x03
            · rw [if_pos hc3] at h; simp at h
            · rw [if_neg hc3] at h
              by_cases hc4 : payload.getD 4 0 = 0x04
              · rw [if_pos hc4] at h
                simp only [Prod.mk.injEq, Except.error.injEq] at h
                obtain ⟨h1, h2⟩ := h
                subst h1; subst h2
                refine ⟨fun _ => rfl, by simp, by simp, ?_, by simp⟩
                intro hnone; cases hnone
              · rw [if_neg hc4] at h
                simp only [Prod.mk.injEq, Except.error.injEq] at h
                obtain ⟨h1, h2⟩ := h
                subst h1; subst h2
                refine ⟨by simp, by simp, by simp, ?_, ?_⟩
                · intro hnone; cases hnone
                · intro _ p hpp
                  cases hpp
                  exact ⟨fun _ => rfl, fun hlt => absurd hlt (by omega)⟩
        · rw [if_pos hman] at h
          simp only [Prod.mk.injEq, Except.error.injEq] at h
          obtain ⟨h1, h2⟩ := h
          subst h1; subst h2
          refine ⟨by simp, fun _ => rfl, by simp, ?_, by simp⟩
          intro hnone; cases hnone

/-- A sysex message whose parsed payload is shorter than the 5-byte header.
Used to state the amended claim C3: such messages yield
`UnexpectedDeviceMessage` without any connection-state change. -/
def short_sysex_payload (buf : List ℕ) : Bool :=
  match parse_sysex buf with
  | some p => decide (p.length < 5)
  | none => false

theorem diff_msgs_refl (k : ℕ) (l : List ℕ) : diff_msgs k l l = [] := by
  induction l generalizing k with
  | nil => rfl
  | cons a as ih => simp [diff_msgs, ih]

theorem diff_msgs_eq (as : List ℕ) : ∀ (k : ℕ) (bs : List ℕ), as.length = bs.length →
    diff_msgs k as bs = (List.range as.length).filterMap
      (fun i => if as.getD i 0 = bs.getD i 0 then none
                else some (Msg.toDevice [0xB0, 0x49 - (k + i), bs.getD i 0])) := by
  induction as with
  | nil => intro k bs h; simp [diff_msgs]
  | cons a as ih =>
    intro k bs h
    cases bs with
    | nil => simp at h
    | cons b bs =>
      have h' : as.length = bs.length := by simpa using h
      have hfun : ((fun i => if (a :: as).getD i 0 = (b :: bs).getD i 0 then none
            else some (Msg.toDevice [0xB0, 0x49 - (k + i), (b :: bs).getD i 0])) ∘ Nat.succ)
          = (fun i => if as.getD i 0 = bs.getD i 0 then none
            else some (Msg.toDevice [0xB0, 0x49 - (k + 1 + i), bs.getD i 0])) := by
        funext i
        simp only [Function.comp_apply, List.getD_cons_succ]
        rw [show k + (i + 1) = k + 1 + i by omega]
      show (if a ≠ b then [Msg.toDevice [0xB0, 0x49 - k, b]] else []) ++ diff_msgs (k + 1) as bs = _
      rw [ih (k + 1) bs h']
      rw [List.length_cons, List.range_succ_eq_map, List.filterMap_cons, List.filterMap_map, hfun]
      by_cases hab : a = b
      · simp [hab]
      · simp [hab]

theorem tag_chan_button (ch : ℕ) (h : ch < 16) :
    (0x90 ||| ch) &&& 0xF0 = 0x90 ∧ (0x90 ||| ch) % 16 = ch := by
  interval_cases ch <;> exact ⟨rfl, rfl⟩

/-! ## Claims -/

/-- C1: for every 4-byte challenge, the 4 response bytes emitted during the
QUERY_HOST handshake equal, byte for byte, the documented formulas
r0 = (c0 + (c1 ^ 0x0A) - c3) & 0x7F, r1 = ((c2 >> 4) ^ (c0 + c3)) & 0x7F,
r2 = ((c3 - (c2 << 2)) ^ (c0 | c1)) & 0x7F,
r3 = (c1 - c2 + (0xF0 ^ (c3 << 4))) & 0x7F, with every addition, subtraction
and shift performed modulo 256 before the 0x7F mask. -/
theorem claim_c1_cipher_matches_spec
    (m : Mackie) (ser : List ℕ) (c0 c1 c2 c3 : ℕ)
    (hser : ser.length = 7) (h0 : c0 < 256) (h1 : c1 < 256) (h2 : c2 < 256) (h3 : c3 < 256) :
    (m.device_query_host 0x10 (ser ++ [c0, c1, c2, c3])).2 =
      .ok [Msg.toDevice (new_sysex ([0x00, 0x00, 0x66, 0x10, 0x02] ++ ser ++
             spec_cipher_response c0 c1 c2 c3)), Msg.connectionInProgress] := by
  have hlen : 11 ≤ (ser ++ [c0, c1, c2, c3]).length := by simp [hser]
  have htake : (ser ++ [c0, c1, c2, c3]).take 7 = ser := List.take_left' hser
  have hdrop : (ser ++ [c0, c1, c2, c3]).drop 7 = [c0, c1, c2, c3] := List.drop_left' hser
  have ecipher : cipher_response c0 c1 c2 c3 = spec_cipher_response c0 c1 c2 c3 := by
    have e0 : wsub (wadd c0 (c1 ^^^ 0x0A)) c3
        = ((c0 + (c1 ^^^ 0x0A)) % 256 + 256 - c3) % 256 := by
      unfold wsub wadd; omega
    have e2 : wsub c3 (wshl c2 2) = (c3 + 256 - (c2 <<< 2) % 256) % 256 := by
      unfold wsub wshl; omega
    have e3a : wsub c1 c2 = (c1 + 256 - c2) % 256 := by
      unfold wsub; omega
    unfold cipher_response spec_cipher_response
    rw [e0, e2, e3a]
    unfold wadd wshl
    simp [Nat.land_comm]
  simp [Mackie.device_query_host, hlen, htake, hdrop, ecipher, hser]

/-- C1 witness: the theorem applied to the challenge 01 02 03 04 with a
concrete serial. -/
theorem claim_c1_witness :
    (Mackie.default.device_query_host 0x10 ([1, 2, 3, 4, 5, 6, 7] ++ [1, 2, 3, 4])).2 =
      .ok [Msg.toDevice (new_sysex ([0x00, 0x00, 0x66, 0x10, 0x02] ++ [1, 2, 3, 4, 5, 6, 7] ++
             spec_cipher_response 1 2 3 4)), Msg.connectionInProgress] :=
  claim_c1_cipher_matches_spec Mackie.default [1, 2, 3, 4, 5, 6, 7] 1 2 3 4 rfl
    (by decide) (by decide) (by decide) (by decide)

/-- C2: a sysex QUERY_HOST carrying sub-model id LogicControl (0x10) and at
least 11 trailing bytes (7-byte serial + 4-byte challenge) moves any driver
state to Connecting(ChallengeReplied), and the output is exactly one
device-bound HOST_REPLY sysex carrying the serial and the 4 cipher bytes
(plus the app-bound in-progress notice); with fewer than 11 trailing bytes
the state becomes Disconnected and an UnexpectedDeviceMessage error value is
returned. -/
theorem claim_c2_query_host_handshake (m : Mackie) (ser chlg extra tr2 : List ℕ)
    (hser : ser.length = 7) (hchlg : chlg.length = 4) (htr2 : tr2.length < 11) :
    (m.msg_from_device (new_sysex ([0x00, 0x00, 0x66, 0x10, 0x01] ++ (ser ++ chlg ++ extra))) =
       ({ m with chan := 0, state := .connecting .challengeReplied },
        [Msg.toDevice (new_sysex ([0x00, 0x00, 0x66, 0x10, 0x02] ++ ser ++
           cipher_response (chlg.getD 0 0) (chlg.getD 1 0) (chlg.getD 2 0) (chlg.getD 3 0))),
         Msg.connectionInProgress]))
    ∧ (m.msg_from_device (new_sysex ([0x00, 0x00, 0x66, 0x10, 0x01] ++ tr2)) =
       ({ m with chan := 0, state := .disconnected },
        [Msg.connectionResult (.error .unexpectedDeviceMsg)])) := by
  constructor
  · have htake : (ser ++ (chlg ++ extra)).take 7 = ser := List.take_left' hser
    have hdrop : (ser ++ (chlg ++ extra)).drop 7 = chlg ++ extra := List.drop_left' hser
    have htake4 : (chlg ++ extra).take 4 = chlg := List.take_left' hchlg
    have hlen : 11 ≤ (ser ++ (chlg ++ extra)).length := by
      simp [hser, hchlg]; omega
    rw [msg_from_device_new_sysex]
    simp only [Mackie.device_sysex, Mackie.device_connection, parse_sysex_new_sysex]
    simp [Mackie.device_query_host, htake, hdrop, htake4, hlen, hser, hchlg, new_sysex]
    split_ifs <;> first | rfl | omega
  · rw [msg_from_device_new_sysex]
    simp only [Mackie.device_sysex, Mackie.device_connection, parse_sysex_new_sysex]
    simp [Mackie.device_query_host, Nat.not_le.mpr htr2, htr2]
    split_ifs <;> first | rfl | omega

/-- C2 witness: the theorem applied to a concrete serial, challenge and a
9-byte malformed trailing payload. -/
theorem claim_c2_witness :
    (Mackie.default.msg_from_device
        (new_sysex ([0x00, 0x00, 0x66, 0x10, 0x01] ++
          ([1, 2, 3, 4, 5, 6, 7] ++ [8, 9, 10, 11] ++ []))) =
       ({ Mackie.default with chan := 0, state := .connecting .challengeReplied },
        [Msg.toDevice (new_sysex ([0x00, 0x00, 0x66, 0x10, 0x02] ++ [1, 2, 3, 4, 5, 6, 7] ++
           cipher_response ([8, 9, 10, 11].getD 0 0) ([8, 9, 10, 11].getD 1 0)
             ([8, 9, 10, 11].getD 2 0) ([8, 9, 10, 11].getD 3 0))),
         Msg.connectionInProgress]))
    ∧ (Mackie.default.msg_from_device
        (new_sysex ([0x00, 0x00, 0x66, 0x10, 0x01] ++ [1, 2, 3, 4, 5, 6, 7, 8, 9])) =
       ({ Mackie.default with chan := 0, state := .disconnected },
        [Msg.connectionResult (.error .unexpectedDeviceMsg)])) :=
  claim_c2_query_host_handshake Mackie.default [1, 2, 3, 4, 5, 6, 7] [8, 9, 10, 11] []
    [1, 2, 3, 4, 5, 6, 7, 8, 9] rfl rfl (by decide)

/-- Concrete Connected driver used by the C3 counterexample and witness. -/
def c3m : Mackie := { Mackie.default with state := .connected }

/-- Sysex tail (payload plus end marker) of a DEVICE_ERR message, used by
the C3 witness. -/
def c3rest : List ℕ := [0x00, 0x00, 0x66, 0x14, 0x04, 0xF7]

/-- C3 counterexample: a sysex with a wrong manufacturer id received while
Connected yields a ManufacturerMismatch error value, yet the state after the
call is still Connected, not Disconnected as the claim requires. -/
theorem claim_c3_counterexample :
    ((c3m.msg_from_device (new_sysex [1, 2, 3, 4, 5])).2 =
      [Msg.connectionResult (.error .manufacturerMismatch)]) ∧
    ((c3m.msg_from_device (new_sysex [1, 2, 3, 4, 5])).1.state = State.connected) :=
  ⟨rfl, rfl⟩

/-- C3 (amended): when msg_from_device on an inbound sysex produces an error
value, the error is surfaced as the only output message; ConnectionError and
any UnexpectedDeviceMessage raised after the 5-byte header validated force
the state to Disconnected, while ManufacturerMismatch and an
UnexpectedDeviceMessage from an undersized payload leave the connection
state unchanged. -/
theorem claim_c3_amended_error_state (m m' : Mackie) (b : ℕ) (rest : List ℕ)
    (msgs : List Msg) (e : CtrlSurfError)
    (hb : b &&& 0xF0 = 0xF0)
    (h : m.msg_from_device (b :: rest) = (m', msgs))
    (he : Msg.connectionResult (.error e) ∈ msgs) :
    msgs = [Msg.connectionResult (.error e)] ∧
    (e = .connectionError → m'.state = .disconnected) ∧
    (e = .manufacturerMismatch → m'.state = m.state) ∧
    (e = .unexpectedDeviceMsg → short_sysex_payload (b :: rest) = false →
        m'.state = .disconnected) ∧
    (e = .unexpectedDeviceMsg → short_sysex_payload (b :: rest) = true →
        m'.state = m.state) := by
  simp only [Mackie.msg_from_device] at h
  rw [hb] at h
  norm_num at h
  have hspec := device_connection_spec { m with chan := b % 16 } (b :: rest)
  unfold Mackie.device_sysex at h
  rcases hdc : Mackie.device_connection { m with chan := b % 16 } (b :: rest) with ⟨m2, r⟩
  rw [hdc] at h
  rcases r with e2 | msgs2 <;> dsimp only at h <;>
    simp only [Prod.mk.injEq] at h <;> obtain ⟨h1, h2⟩ := h <;> subst h1 <;> subst h2
  · simp only [List.mem_singleton] at he
    have he2 : e = e2 := by cases he; rfl
    subst he2
    have hc := hspec.2 m2 e hdc
    refine ⟨rfl, fun hE => hc.1 hE, fun hE => by rw [hc.2.1 hE], ?_, ?_⟩
    · intro hE hshort
      unfold short_sysex_payload at hshort
      rcases hp : parse_sysex (b :: rest) with _ | p
      · have hmid := hc.2.2.2.1 hp
        rw [hE] at hmid
        cases hmid
      · rw [hp] at hshort
        simp at hshort
        exact (hc.2.2.2.2 hE p hp).1 hshort
    · intro hE hshort
      unfold short_sysex_payload at hshort
      rcases hp : parse_sysex (b :: rest) with _ | p
      · rw [hp] at hshort; cases hshort
      · rw [hp] at hshort
        simp at hshort
        rw [(hc.2.2.2.2 hE p hp).2 hshort]
  · exact absurd he (hspec.1 m2 msgs2 hdc e)

/-- C3 witness: the amended theorem applied to a DEVICE_ERR sysex received
while Connected (a ConnectionError that lands in Disconnected). -/
theorem claim_c3_witness :
    ((c3m.msg_from_device (0xF0 :: c3rest)).2 =
      [Msg.connectionResult (.error CtrlSurfError.connectionError)]) ∧
    (CtrlSurfError.connectionError = CtrlSurfError.connectionError →
      (c3m.msg_from_device (0xF0 :: c3rest)).1.state = State.disconnected) ∧
    (CtrlSurfError.connectionError = CtrlSurfError.manufacturerMismatch →
      (c3m.msg_from_device (0xF0 :: c3rest)).1.state = c3m.state) ∧
    (CtrlSurfError.connectionError = CtrlSurfError.unexpectedDeviceMsg →
      short_sysex_payload (0xF0 :: c3rest) = false →
      (c3m.msg_from_device (0xF0 :: c3rest)).1.state = State.disconnected) ∧
    (CtrlSurfError.connectionError = CtrlSurfError.unexpectedDeviceMsg →
      short_sysex_payload (0xF0 :: c3rest) = true →
      (c3m.msg_from_device (0xF0 :: c3rest)).1.state = c3m.state) :=
  claim_c3_amended_error_state c3m (c3m.msg_from_device (0xF0 :: c3rest)).1 0xF0 c3rest
    (c3m.msg_from_device (0xF0 :: c3rest)).2
    CtrlSurfError.connectionError (by decide) rfl (by decide)

/-- C4 counterexample: a well-formed DEVICE_OK sysex received while the
driver is Disconnected (not Connecting) transitions the driver straight to
Connected, contradicting the claim that Connected is reachable only from a
Connecting state. -/
theorem claim_c4_counterexample :
    (Mackie.default.msg_from_device (new_sysex [0x00, 0x00, 0x66, 0x14, 0x03])).1.state
        = State.connected ∧
    Mackie.default.state = State.disconnected ∧
    Mackie.default.is_connected = false :=
  ⟨rfl, rfl, rfl⟩

/-- C4 (amended): the handshake state machine does not gate on the current
state: a well-formed DEVICE_OK sysex moves any driver state to Connected,
and a well-formed DEVICE_ERR sysex moves any driver state to Disconnected. -/
theorem claim_c4_amended_no_state_gating (m : Mackie) (dev : ℕ) (tr : List ℕ) :
    ((m.msg_from_device (new_sysex ([0x00, 0x00, 0x66, dev, 0x03] ++ tr))).1.state
        = State.connected) ∧
    ((m.msg_from_device (new_sysex ([0x00, 0x00, 0x66, dev, 0x04] ++ tr))).1.state
        = State.disconnected) := by
  constructor <;>
    (rw [msg_from_device_new_sysex]
     simp only [Mackie.device_sysex, Mackie.device_connection, Mackie.device_connected,
       parse_sysex_new_sysex]
     simp
     try split_ifs <;> first | rfl | omega)

/-- C5: every application event arriving while the driver is not connected
(state Connecting or Disconnected) yields an empty output batch and leaves
the whole driver state unchanged. -/
theorem claim_c5_events_dropped_when_not_connected (m : Mackie) (ev : Feedback)
    (h : m.is_connected = false) :
    m.event_to_device ev = some (m, []) := by
  simp [Mackie.event_to_device, h]

/-- C5 witness: a Volume event against the default (Disconnected) driver. -/
theorem claim_c5_witness :
    Mackie.default.event_to_device (.mixer (.volume (1 / 2))) = some (Mackie.default, []) :=
  claim_c5_events_dropped_when_not_connected Mackie.default (.mixer (.volume (1 / 2))) rfl

/-- C6: with the fader released on a connected driver, a touch message above
the threshold 64 moves the fader to Touched with no output; an app Volume
event then produces no device message and buffers the volume; a touch
message at or below the threshold releases the fader and emits exactly the
app-bound Volume event together with the device fader message encoding the
buffered volume. -/
theorem claim_c6_fader_arbitration (m : Mackie) (ch v1 v2 : ℕ) (vol : ℚ)
    (hcon : m.is_connected = true) (hf : m.fader_state = .released)
    (hch : ch < 16) (hv1 : 64 < v1) (hv2 : v2 ≤ 64) :
    (m.msg_from_device [0x90 ||| ch, 104, v1] =
      ({ m with chan := ch, fader_state := .touched none }, [])) ∧
    (({ m with chan := ch, fader_state := .touched none } : Mackie).event_to_device
        (.mixer (.volume vol)) =
      some ({ m with chan := ch, fader_state := .touched (some vol) }, [])) ∧
    (({ m with chan := ch, fader_state := .touched (some vol) } : Mackie).msg_from_device
        [0x90 ||| ch, 104, v2] =
      ({ m with chan := ch, fader_state := .released },
       [Msg.toApp (.mixer (.volume vol)),
        Msg.toDevice [0xE0 ||| ch, (normalized_to_be vol).1, (normalized_to_be vol).2]])) := by
  obtain ⟨htag, hmod⟩ := tag_chan_button ch hch
  have hnv2 : ¬ 64 < v2 := by omega
  refine ⟨?_, ?_, ?_⟩
  · simp only [Mackie.msg_from_device]
    rw [htag, hmod]
    simp [Mackie.device_fader_touch, hf, hv1]
  · have hcon2 : ({ m with chan := ch, fader_state := FaderState.touched none } : Mackie).is_connected
        = true := hcon
    simp [Mackie.event_to_device, hcon2, Mackie.app_volume]
  · simp only [Mackie.msg_from_device]
    rw [htag, hmod]
    simp [Mackie.device_fader_touch, hnv2, Mackie.build_fader_msg]

/-- Concrete connected driver used by the C6 witness. -/
def c6m : Mackie := { Mackie.default with state := .connected }

/-- C6 witness: touch with value 100, buffer volume one half, release with
value 0, on a freshly connected driver. -/
theorem claim_c6_witness :
    (c6m.msg_from_device [0x90 ||| 0, 104, 100] =
      ({ c6m with chan := 0, fader_state := .touched none }, [])) ∧
    (({ c6m with chan := 0, fader_state := .touched none } : Mackie).event_to_device
        (.mixer (.volume (1 / 2))) =
      some ({ c6m with chan := 0, fader_state := .touched (some (1 / 2)) }, [])) ∧
    (({ c6m with chan := 0, fader_state := .touched (some (1 / 2)) } : Mackie).msg_from_device
        [0x90 ||| 0, 104, 0] =
      ({ c6m with chan := 0, fader_state := .released },
       [Msg.toApp (.mixer (.volume (1 / 2))),
        Msg.toDevice [0xE0 ||| 0, (normalized_to_be (1 / 2)).1,
          (normalized_to_be (1 / 2)).2]])) :=
  claim_c6_fader_arbitration c6m 0 100 0 (1 / 2) rfl rfl (by decide) (by decide) (by decide)

/-- C7: on a connected driver a Timecode event is routed to app_timecode,
which emits exactly one display-update message per buffer position whose
digit differs from the stored buffer, addressed at index 0x49 minus the
position offset; the stored buffer is replaced by the new one, and rendering
the same timecode again emits nothing. -/
theorem claim_c7_timecode_diff (m : Mackie) (tc : List ℕ)
    (hcon : m.is_connected = true) (hlen : m.last_tc.length = 10) (htc : tc.length = 10) :
    (m.event_to_device (.data (.timecode tc)) = some (m.app_timecode tc)) ∧
    ((m.app_timecode tc).2 = (List.range 10).filterMap
        (fun i => if m.last_tc.getD i 0 = tc.getD i 0 then none
                  else some (Msg.toDevice [0xB0, 0x49 - i, tc.getD i 0]))) ∧
    ((m.app_timecode tc).1.last_tc = tc) ∧
    (((m.app_timecode tc).1.app_timecode tc).2 = []) := by
  refine ⟨by simp [Mackie.event_to_device, hcon], ?_, rfl, ?_⟩
  · have hd := diff_msgs_eq m.last_tc 0 tc (by rw [hlen, htc])
    rw [hlen] at hd
    simpa [Mackie.app_timecode] using hd
  · simp [Mackie.app_timecode, diff_msgs_refl]

/-- Concrete connected driver used by the C7 witness. -/
def c7m : Mackie := { Mackie.default with state := .connected }

/-- Concrete rendered timecode buffer used by the C7 witness. -/
def c7tc : List ℕ := [48, 48, 48, 48, 49, 48, 50, 48, 48, 48]

/-- C7 witness: render a concrete timecode buffer twice on a connected
driver with a blank stored buffer. -/
theorem claim_c7_witness :
    (c7m.event_to_device (.data (.timecode c7tc)) = some (c7m.app_timecode c7tc)) ∧
    ((c7m.app_timecode c7tc).2 = (List.range 10).filterMap
        (fun i => if c7m.last_tc.getD i 0 = c7tc.getD i 0 then none
                  else some (Msg.toDevice [0xB0, 0x49 - i, c7tc.getD i 0]))) ∧
    ((c7m.app_timecode c7tc).1.last_tc = c7tc) ∧
    (((c7m.app_timecode c7tc).1.app_timecode c7tc).2 = []) :=
  claim_c7_timecode_diff c7m c7tc rfl (by decide) (by decide)

/-- Concrete Connected driver with nonzero channel and a bound device id,
used by the C8 counterexample. -/
def c8m : Mackie :=
  { Mackie.default with state := .connected, chan := 5, device_id := some 0x14 }

/-- C8 counterexample: reset from Connected with channel 5 and a bound
device id resets the channel to 0 and drops the device id, so the
connection identity is not preserved as the claim states. -/
theorem claim_c8_counterexample :
    ((c8m.reset).1.chan = 0) ∧ (c8m.chan = 5) ∧
    ((c8m.reset).1.device_id = none) ∧ (c8m.device_id = some 0x14) :=
  ⟨rfl, rfl, rfl, rfl⟩

/-- C8 (amended): reset emits the four transport-button OFF messages on the
current channel followed by the ten blank display digits, collapses
Connected/Playing/Stopped to Connected while other states pass through, and
rebuilds everything else from the defaults - fader, timecode buffer, and
also the MIDI channel and the bound device id (connection identity is not
preserved). -/
theorem claim_c8_amended_reset_effect (m : Mackie) :
    ((m.reset).2 =
      [Msg.toDevice [0x90 ||| m.chan, 91, 0], Msg.toDevice [0x90 ||| m.chan, 92, 0],
       Msg.toDevice [0x90 ||| m.chan, 93, 0], Msg.toDevice [0x90 ||| m.chan, 94, 0],
       Msg.toDevice [0xB0, 0x49, 32], Msg.toDevice [0xB0, 0x48, 32],
       Msg.toDevice [0xB0, 0x47, 32], Msg.toDevice [0xB0, 0x46, 32],
       Msg.toDevice [0xB0, 0x45, 32], Msg.toDevice [0xB0, 0x44, 32],
       Msg.toDevice [0xB0, 0x43, 32], Msg.toDevice [0xB0, 0x42, 32],
       Msg.toDevice [0xB0, 0x41, 32], Msg.toDevice [0xB0, 0x40, 32]]) ∧
    ((m.reset).1.state = (match m.state with
        | .connected | .playing | .stopped => State.connected
        | s => s)) ∧
    ((m.reset).1.fader_state = .released) ∧
    ((m.reset).1.last_tc = List.replicate 10 32) ∧
    ((m.reset).1.chan = 0) ∧
    ((m.reset).1.device_id = none) := by
  obtain ⟨ltc, c, st, fs, did⟩ := m
  refine ⟨rfl, ?_, rfl, rfl, rfl, rfl⟩
  cases st <;> rfl

/-- Concrete Connected driver with channel 1, used by the C9
counterexample. -/
def c9cm : Mackie := { Mackie.default with state := .connected, chan := 1 }

/-- C9 counterexample: from Connected with channel 1, the two successive
reset calls produce different byte sequences (the first addresses the
buttons on channel 1, the second on channel 0), refuting byte-for-byte
equality of the two output batches. -/
theorem claim_c9_counterexample :
    (((c9cm.reset).1.reset).2 ≠ (c9cm.reset).2) ∧
    (((c9cm.reset).1.reset).1 = (c9cm.reset).1) := by
  constructor
  · decide
  · rfl

/-- C9 (amended): from Connected, two successive resets yield the same
resulting driver state; the two output batches coincide exactly when the
starting channel is already the default 0, because reset resets the channel
and the second batch is always addressed to channel 0. -/
theorem claim_c9_amended_reset_idempotent (m : Mackie)
    (h1 : m.state = .connected) (h2 : m.chan < 16) :
    (((m.reset).1.reset).1 = (m.reset).1) ∧
    ((((m.reset).1.reset).2 = (m.reset).2) ↔ m.chan = 0) := by
  obtain ⟨ltc, c, st, fs, did⟩ := m
  dsimp only at h1 h2 ⊢
  subst h1
  refine ⟨rfl, ?_⟩
  simp only [Mackie.reset, Mackie.default]
  norm_num
  interval_cases c <;> simp

/-- Concrete Connected driver with channel 3, used by the C9 witness. -/
def c9m : Mackie := { Mackie.default with state := .connected, chan := 3 }

/-- C9 witness: the amended theorem applied from Connected with channel 3
(states agree, batches differ because the channel was nonzero). -/
theorem claim_c9_witness :
    (((c9m.reset).1.reset).1 = (c9m.reset).1) ∧
    ((((c9m.reset).1.reset).2 = (c9m.reset).2) ↔ c9m.chan = 0) :=
  claim_c9_amended_reset_idempotent c9m rfl (by decide)

/-- C10: the unreachable branches in the Play/Pause handlers never execute
through the public interface: event_to_device always returns a defined
result (the Option modelling of the panic is never none), because events are
dropped before dispatch unless the state is Connected, Playing or Stopped. -/
theorem claim_c10_play_pause_panic_unreachable (m : Mackie) (ev : Feedback) :
    (m.event_to_device ev).isSome = true := by
  rcases ev with t | mx | _ | d
  · cases t <;> cases hs : m.state <;>
      simp [Mackie.event_to_device, Mackie.is_connected, Mackie.app_play, Mackie.app_pause, hs]
  · cases mx <;> (simp only [Mackie.event_to_device]; split <;> simp)
  · simp only [Mackie.event_to_device]; split <;> simp
  · cases d <;> (simp only [Mackie.event_to_device]; split <;> simp)
